import Mathlib

set_option maxRecDepth 1000000
set_option maxHeartbeats 1000000

/-
Verification of the category/payment-method normalization pipeline of the
Expense-Tracker repository (src/src/analysis/nlp.py and
src/src/storage/database.py).

The similarity scoring is difflib.SequenceMatcher(None, a, b).ratio() of Python.
Both arguments here are short (the second argument is always one of the fixed
example strings, length at most 10), so the autojunk heuristic (which only
activates when the second sequence has at least 200 elements) and the junk
parameter (passed as None) are inert; ratio() is then
  2 * M / (len a + len b)
where M is the total size of the matching blocks produced by recursively
taking the longest matching block (earliest in a, then earliest in b, on
ties) and recursing on the parts to its left and right, and the value is 1.0
when both strings are empty.  All scores are rationals with denominator at
most a few dozen, so the Python float comparisons against each other and
against the literal 0.8 agree with exact rational comparisons, and we model
scores as ℚ.
-/

/-- One row of the find_longest_match dynamic program of difflib: given the run
lengths `prev` ending at row `i - 1`, the run length at `(i, j)` is
`prev[j-1] + 1` when `b[j] = a[i]` and `j` is inside `[blo, bhi)`, else 0. -/
def flmRow (a b : List Char) (i blo bhi : Nat) (prev : List Nat) : List Nat :=
  (List.range b.length).map fun j =>
    if blo ≤ j ∧ j < bhi ∧ i < a.length ∧ b.getD j 'A' = a.getD i 'A' then
      (if j = 0 then 0 else prev.getD (j - 1) 0) + 1
    else 0

/-- Scan one row for a new best block: difflib replaces the recorded best
only on a strictly larger run length, scanning i then j in increasing
order, and records the block start `(i - k + 1, j - k + 1, k)`. -/
def flmBest (row : List Nat) (i : Nat) (best : Nat × Nat × Nat) : Nat × Nat × Nat :=
  (List.range row.length).foldl
    (fun acc j =>
      let k := row.getD j 0
      if acc.2.2 < k then (i + 1 - k, j + 1 - k, k) else acc)
    best

/-- difflib SequenceMatcher.find_longest_match restricted to
`a[alo:ahi]` and `b[blo:bhi]`, with no junk (the junk/popularity extension
loops never fire when the junk sets are empty).  Returns
`(besti, bestj, bestsize)`. -/
def find_longest_match (a b : List Char) (alo ahi blo bhi : Nat) : Nat × Nat × Nat :=
  let res := (List.range (ahi - alo)).foldl
    (fun st d =>
      let i := alo + d
      let row := flmRow a b i blo bhi st.1
      (row, flmBest row i st.2))
    (List.replicate b.length 0, (alo, blo, 0))
  res.2

/-- Total size of the matching blocks of get_matching_blocks in difflib:
take the longest match, recurse left and right of it.  The `fuel` argument
only serves termination; every call strictly decreases `ahi - alo`, so the
top-level call with `fuel = a.length` never runs out. -/
def matchingSizes (a b : List Char) : Nat → Nat → Nat → Nat → Nat → Nat
  | 0, _, _, _, _ => 0
  | fuel + 1, alo, ahi, blo, bhi =>
    let r := find_longest_match a b alo ahi blo bhi
    let i := r.1
    let j := r.2.1
    let k := r.2.2
    if k = 0 then 0
    else
      k + (if alo < i ∧ blo < j then matchingSizes a b fuel alo i blo j else 0)
        + (if i + k < ahi ∧ j + k < bhi then matchingSizes a b fuel (i + k) ahi (j + k) bhi else 0)

/-- Total number of matched elements between `a` and `b`, the difflib value
`sum(block.size for block in get_matching_blocks())`. -/
def matchTotal (a b : List Char) : Nat :=
  matchingSizes a b a.length 0 a.length 0 b.length

/-- difflib SequenceMatcher.ratio(): `2 * M / (len a + len b)`, and 1.0 when
both sequences are empty.  `mkRat n d` is the rational `n / d`. -/
def ratioVal (a b : List Char) : ℚ :=
  if a.length + b.length = 0 then 1
  else mkRat (2 * matchTotal a b) (a.length + b.length)

/-- The Python expression `s.lower().strip()` applied to the character list: ASCII
lowercase each character, then drop whitespace from both ends. -/
def pyLowerStrip (s : String) : List Char :=
  (((s.data.map Char.toLower).dropWhile Char.isWhitespace).reverse.dropWhile
      Char.isWhitespace).reverse

/-- CATEGORY_EXAMPLES of nlp.py, in dict insertion order (Python dicts
iterate in insertion order). -/
def CATEGORY_EXAMPLES : List (String × List String) :=
  [("Food", ["drink", "lunch", "dinner", "groceries", "food"]),
   ("Transport", ["bus", "train", "taxi", "subway"]),
   ("Entertainment", ["movie", "game"]),
   ("Utilities", ["mobile", "internet"]),
   ("Miscellaneous", ["other"])]

/-- PAYMENT_EXAMPLES of nlp.py, in insertion order. -/
def PAYMENT_EXAMPLES : List (String × List String) :=
  [("TD Debit", ["debit", "td debit"]),
   ("Cash", ["cash"]),
   ("Credit Card", ["credit", "visa", "mastercard"])]

/-- The (general label, example) pairs of a table, in the nested iteration
order of the two `for` loops of the matchers. -/
def tablePairs (t : List (String × List String)) : List (String × String) :=
  t.flatMap fun p => p.2.map fun e => (p.1, e)

/-- Similarity score of one (general label, example) pair against the
normalized input characters `c`. -/
def pairScore (c : List Char) (p : String × String) : ℚ :=
  ratioVal c p.2.data

/-- One iteration of the matcher loops: replace the recorded
(best score, best label) only when the new score is strictly greater. -/
def stepBest (c : List Char) (best : ℚ × String) (p : String × String) : ℚ × String :=
  if best.1 < pairScore c p then (pairScore c p, p.1) else best

/-- The nested loops of the matchers: fold over all (label, example) pairs
starting from score 0 and label "Miscellaneous". -/
def bestMatch (c : List Char) (pairs : List (String × String)) : ℚ × String :=
  pairs.foldl (stepBest c) (0, "Miscellaneous")

/-- nlp.get_general_category_from_similarity: lowercase and strip the input,
take the best-scoring (general, example) pair of CATEGORY_EXAMPLES, and
return its general label when the best score is strictly greater than 0.8,
else "Miscellaneous". -/
def get_general_category_from_similarity (category : String) : String :=
  if mkRat 4 5 < (bestMatch (pyLowerStrip category) (tablePairs CATEGORY_EXAMPLES)).1 then
    (bestMatch (pyLowerStrip category) (tablePairs CATEGORY_EXAMPLES)).2
  else ("Miscellaneous")

/-- nlp.get_general_payment_method: same algorithm over PAYMENT_EXAMPLES. -/
def get_general_payment_method (payment_method : String) : String :=
  if mkRat 4 5 < (bestMatch (pyLowerStrip payment_method) (tablePairs PAYMENT_EXAMPLES)).1 then
    (bestMatch (pyLowerStrip payment_method) (tablePairs PAYMENT_EXAMPLES)).2
  else ("Miscellaneous")

/-
The fallback classifier.  In the source, train_category_classifier /
train_payment_classifier read the MongoDB collection into a dataframe of
(description, label) rows; we take that row list as the argument.  The pair
(MultinomialNB model, TfidfVectorizer) is used by the pipeline only through
the composite `model.predict(vectorizer.transform([description]))[0]`, a
function from the description to a label, so a trained pair is embedded as
`Option (String → String)` (`none` when either component is None).
-/

/-- Modelled from the spec: `TfidfVectorizer.fit_transform` and
`MultinomialNB.fit`/`predict` are external library calls (sklearn), absent
from this repository.  Per the spec, `predict` "returns the single most
probable label" among the labels seen in training, with no confidence
threshold; the probability computation itself is external, so it is
modelled as returning the label of the training row whose description is
most similar to the query (first-seen on ties), which always lies among the
training labels. -/
def nbPredict (data : List (String × String)) (description : String) : String :=
  (data.foldl
    (fun best row =>
      let sc := ratioVal description.data row.1.data
      if best.1 < sc then (sc, row.2) else best)
    (0, "Miscellaneous")).2

/-- nlp.train_category_classifier: with fewer than 2 rows return the
untrained result (None, None); otherwise fit and return the model. -/
def train_category_classifier (data : List (String × String)) : Option (String → String) :=
  if data.length < 2 then none else some (nbPredict data)

/-- nlp.train_payment_classifier: identical guard over
(description, payment_method) rows. -/
def train_payment_classifier (data : List (String × String)) : Option (String → String) :=
  if data.length < 2 then none else some (nbPredict data)

/-- nlp.predict_and_refine_category: similarity first; a result other than
"Miscellaneous" is returned as is; otherwise the trained model, when
present, predicts from the description; otherwise "Miscellaneous". -/
def predict_and_refine_category (description user_category : String)
    (model : Option (String → String)) : String :=
  if get_general_category_from_similarity user_category ≠ "Miscellaneous" then
    get_general_category_from_similarity user_category
  else
    match model with
    | some predict => predict description
    | none => "Miscellaneous"

/-- nlp.predict_and_refine_payment: same composition over the payment
matcher. -/
def predict_and_refine_payment (description user_payment : String)
    (model : Option (String → String)) : String :=
  if get_general_payment_method user_payment ≠ "Miscellaneous" then
    get_general_payment_method user_payment
  else
    match model with
    | some predict => predict description
    | none => "Miscellaneous"

/-- The document that database.add_expense_db inserts into the `expenses`
collection.  `amount` is stored through `float(amount)`; we take the amount
as a rational already. -/
structure ExpenseDoc where
  date : String
  amount : ℚ
  category : String
  original_category : String
  description : String
  payment_method : String
  original_payment_method : String
deriving Repr, DecidableEq

/-- database.add_expense_db: refine category and payment by similarity,
fall back to predict_and_refine_* when the similarity result is
"Miscellaneous" and a model and vectorizer are present (sklearn estimators
are truthy, so the Python truthiness test is a not-None test), then build
the inserted document.  The MongoDB insert_one itself is the external
store; the function returns the document it inserts. -/
def add_expense_db (date : String) (amount : ℚ)
    (category description payment_method : String)
    (category_model payment_model : Option (String → String)) : ExpenseDoc :=
  let refined_category := get_general_category_from_similarity category
  let refined_category :=
    if refined_category = "Miscellaneous" ∧ category_model.isSome then
      predict_and_refine_category description category category_model
    else refined_category
  let refined_payment := get_general_payment_method payment_method
  let refined_payment :=
    if refined_payment = "Miscellaneous" ∧ payment_model.isSome then
      predict_and_refine_payment description payment_method payment_model
    else refined_payment
  { date := date
    amount := amount
    category := refined_category
    original_category := category
    description := description
    payment_method := refined_payment
    original_payment_method := payment_method }

/-- The canonical category labels: keys of CATEGORY_EXAMPLES together with
the default "Miscellaneous" (itself already a key). -/
def canonicalCategoryLabels : List String :=
  "Miscellaneous" :: CATEGORY_EXAMPLES.map Prod.fst

/-- The canonical payment labels: keys of PAYMENT_EXAMPLES together with
the default "Miscellaneous". -/
def canonicalPaymentLabels : List String :=
  "Miscellaneous" :: PAYMENT_EXAMPLES.map Prod.fst

/-- Running maximum of the pair scores, seeded with `a` (the matchers seed
with 0). -/
def maxScoreFrom (c : List Char) (pairs : List (String × String)) (a : ℚ) : ℚ :=
  pairs.foldl (fun m p => max m (pairScore c p)) a

/-- The pairs of the first (label, example) per iteration order whose score
equals `m`; "first-seen" is what the strict-improvement loop keeps. -/
def firstWithScore (c : List Char) (pairs : List (String × String)) (m : ℚ) :
    Option (String × String) :=
  pairs.find? fun q => decide (pairScore c q = m)

theorem maxScoreFrom_cons (c : List Char) (p : String × String)
    (l : List (String × String)) (a : ℚ) :
    maxScoreFrom c (p :: l) a = maxScoreFrom c l (max a (pairScore c p)) := rfl

theorem le_maxScoreFrom (c : List Char) :
    ∀ (l : List (String × String)) (a : ℚ), a ≤ maxScoreFrom c l a := by
  intro l
  induction l with
  | nil => intro a; exact le_refl a
  | cons p l ih =>
    intro a
    exact le_trans (le_max_left a (pairScore c p)) (ih (max a (pairScore c p)))

theorem stepBest_fst (c : List Char) (acc : ℚ × String) (p : String × String) :
    (stepBest c acc p).1 = max acc.1 (pairScore c p) := by
  unfold stepBest
  by_cases h : acc.1 < pairScore c p
  · rw [if_pos h]
    exact (max_eq_right h.le).symm
  · rw [if_neg h]
    exact (max_eq_left (not_lt.mp h)).symm

theorem foldl_stepBest_fst (c : List Char) :
    ∀ (l : List (String × String)) (acc : ℚ × String),
      (l.foldl (stepBest c) acc).1 = maxScoreFrom c l acc.1 := by
  intro l
  induction l with
  | nil => intro acc; rfl
  | cons p l ih =>
    intro acc
    rw [List.foldl_cons, ih (stepBest c acc p), maxScoreFrom_cons, stepBest_fst]

theorem foldl_stepBest_of_le (c : List Char) :
    ∀ (l : List (String × String)) (a : ℚ) (s : String),
      maxScoreFrom c l a ≤ a → l.foldl (stepBest c) (a, s) = (a, s) := by
  intro l
  induction l with
  | nil => intro a s _; rfl
  | cons p l ih =>
    intro a s h
    rw [maxScoreFrom_cons] at h
    have hmax : max a (pairScore c p) ≤ a :=
      le_trans (le_maxScoreFrom c l (max a (pairScore c p))) h
    have hp : pairScore c p ≤ a := le_trans (le_max_right _ _) hmax
    have hstep : stepBest c (a, s) p = (a, s) := by
      unfold stepBest
      rw [if_neg (not_lt.mpr hp)]
    rw [List.foldl_cons, hstep]
    apply ih
    rw [max_eq_left hp] at h
    exact h

theorem firstWithScore_cons (c : List Char) (p : String × String)
    (l : List (String × String)) (m : ℚ) :
    firstWithScore c (p :: l) m =
      if pairScore c p = m then some p else firstWithScore c l m := by
  unfold firstWithScore
  by_cases h : pairScore c p = m
  · rw [if_pos h]
    exact List.find?_cons_of_pos _ (by simpa using h)
  · rw [if_neg h]
    exact List.find?_cons_of_neg _ (by simpa using h)

theorem foldl_stepBest_argmax (c : List Char) :
    ∀ (l : List (String × String)) (a : ℚ) (s : String),
      a < maxScoreFrom c l a →
      ∃ p, firstWithScore c l (maxScoreFrom c l a) = some p ∧
        (l.foldl (stepBest c) (a, s)).2 = p.1 := by
  intro l
  induction l with
  | nil =>
    intro a s h
    exact absurd h (lt_irrefl a)
  | cons p l ih =>
    intro a s h
    rw [maxScoreFrom_cons] at h ⊢
    rw [List.foldl_cons]
    by_cases h1 : a < pairScore c p
    · have hmax : max a (pairScore c p) = pairScore c p := max_eq_right h1.le
      rw [hmax] at h ⊢
      have hstep : stepBest c (a, s) p = (pairScore c p, p.1) := by
        unfold stepBest
        rw [if_pos h1]
      rw [hstep]
      by_cases h2 : pairScore c p < maxScoreFrom c l (pairScore c p)
      · obtain ⟨p0, hf, hv⟩ := ih (pairScore c p) p.1 h2
        refine ⟨p0, ?_, hv⟩
        rw [firstWithScore_cons, if_neg (ne_of_lt h2), hf]
      · have heq : maxScoreFrom c l (pairScore c p) = pairScore c p :=
          le_antisymm (not_lt.mp h2) (le_maxScoreFrom c l _)
        rw [heq]
        refine ⟨p, ?_, ?_⟩
        · rw [firstWithScore_cons, if_pos rfl]
        · rw [foldl_stepBest_of_le c l _ _ (le_of_eq heq)]
    · have hp : pairScore c p ≤ a := not_lt.mp h1
      have hmax : max a (pairScore c p) = a := max_eq_left hp
      rw [hmax] at h ⊢
      have hstep : stepBest c (a, s) p = (a, s) := by
        unfold stepBest
        rw [if_neg h1]
      rw [hstep]
      obtain ⟨p0, hf, hv⟩ := ih a s h
      refine ⟨p0, ?_, hv⟩
      have hne : pairScore c p ≠ maxScoreFrom c l a :=
        ne_of_lt (lt_of_le_of_lt hp h)
      rw [firstWithScore_cons, if_neg hne, hf]

theorem foldl_stepBest_snd_mem (c : List Char) :
    ∀ (l : List (String × String)) (acc : ℚ × String),
      (l.foldl (stepBest c) acc).2 = acc.2 ∨
        (l.foldl (stepBest c) acc).2 ∈ l.map Prod.fst := by
  intro l
  induction l with
  | nil => intro acc; exact Or.inl rfl
  | cons p l ih =>
    intro acc
    rw [List.foldl_cons, List.map_cons]
    rcases ih (stepBest c acc p) with h | h
    · rw [h]
      unfold stepBest
      by_cases h1 : acc.1 < pairScore c p
      · rw [if_pos h1]
        exact Or.inr (List.mem_cons_self _ _)
      · rw [if_neg h1]
        exact Or.inl rfl
    · exact Or.inr (List.mem_cons_of_mem _ h)

theorem get_general_category_mem (s : String) :
    get_general_category_from_similarity s ∈ canonicalCategoryLabels := by
  unfold get_general_category_from_similarity
  by_cases h :
      mkRat 4 5 < (bestMatch (pyLowerStrip s) (tablePairs CATEGORY_EXAMPLES)).1
  · rw [if_pos h]
    rcases foldl_stepBest_snd_mem (pyLowerStrip s) (tablePairs CATEGORY_EXAMPLES)
        (0, "Miscellaneous") with h2 | h2
    · show (List.foldl (stepBest (pyLowerStrip s)) (0, "Miscellaneous")
          (tablePairs CATEGORY_EXAMPLES)).2 ∈ canonicalCategoryLabels
      rw [h2]
      decide
    · have hsub : ∀ x ∈ (tablePairs CATEGORY_EXAMPLES).map Prod.fst,
          x ∈ canonicalCategoryLabels := by decide
      exact hsub _ h2
  · rw [if_neg h]
    decide

theorem get_general_payment_mem (s : String) :
    get_general_payment_method s ∈ canonicalPaymentLabels := by
  unfold get_general_payment_method
  by_cases h :
      mkRat 4 5 < (bestMatch (pyLowerStrip s) (tablePairs PAYMENT_EXAMPLES)).1
  · rw [if_pos h]
    rcases foldl_stepBest_snd_mem (pyLowerStrip s) (tablePairs PAYMENT_EXAMPLES)
        (0, "Miscellaneous") with h2 | h2
    · show (List.foldl (stepBest (pyLowerStrip s)) (0, "Miscellaneous")
          (tablePairs PAYMENT_EXAMPLES)).2 ∈ canonicalPaymentLabels
      rw [h2]
      decide
    · have hsub : ∀ x ∈ (tablePairs PAYMENT_EXAMPLES).map Prod.fst,
          x ∈ canonicalPaymentLabels := by decide
      exact hsub _ h2
  · rw [if_neg h]
    decide

/-- C1 counterexample: for the raw label "other" the Similarity Matcher
produces a match — its best score is 1, strictly above 0.8 — whose
canonical label is "Miscellaneous"; the claim then demands that the
pipeline return "Miscellaneous" without consulting the classifier, but with
a trained classifier present the pipeline consults it and returns its
prediction "Transport". -/
theorem c1_counterexample :
    bestMatch (pyLowerStrip ("other")) (tablePairs CATEGORY_EXAMPLES)
        = (1, "Miscellaneous") ∧
      mkRat 4 5 < (1 : ℚ) ∧
      predict_and_refine_category ("meal at diner") ("other")
          (some fun _ => "Transport") = "Transport" :=
  ⟨by decide, by decide, by decide⟩

/-- C1 (amended): whenever the Similarity Matcher returns a label other
than "Miscellaneous" — which it does exactly on a match whose canonical
label is not "Miscellaneous" — the pipeline returns that label unchanged
and its result does not depend on the classifier; a match whose canonical
label is "Miscellaneous" is indistinguishable from "no match" and falls
through to the classifier. -/
theorem c1_match_terminal (description raw : String)
    (model model' : Option (String → String)) :
    (get_general_category_from_similarity raw ≠ "Miscellaneous" →
      predict_and_refine_category description raw model =
          get_general_category_from_similarity raw ∧
        predict_and_refine_category description raw model =
          predict_and_refine_category description raw model') ∧
    (get_general_payment_method raw ≠ "Miscellaneous" →
      predict_and_refine_payment description raw model =
          get_general_payment_method raw ∧
        predict_and_refine_payment description raw model =
          predict_and_refine_payment description raw model') := by
  constructor
  · intro h
    unfold predict_and_refine_category
    rw [if_pos h, if_pos h]
    exact ⟨rfl, rfl⟩
  · intro h
    unfold predict_and_refine_payment
    rw [if_pos h, if_pos h]
    exact ⟨rfl, rfl⟩

/-- C1 witness: at the matched raw label "lunch" the pipeline output equals
the matcher output, whatever classifier is supplied. -/
theorem c1_witness :
    predict_and_refine_category ("salad") ("lunch") (some fun _ => "Transport")
      = get_general_category_from_similarity ("lunch") :=
  ((c1_match_terminal ("salad") ("lunch") (some fun _ => "Transport")
      none).1 (by decide)).1

/-- C2: evaluation of the category matcher at the claimed inputs: "lunch"
maps to "Food" and "xyz123" to "Miscellaneous" as claimed, but "coffe" maps
to "Miscellaneous" — its best similarity ratio over all example pairs is
2/5, far below the 0.8 threshold — although the claim and the docstring
example of the function itself assert "Food". -/
theorem c2_code_eval :
    get_general_category_from_similarity ("lunch") = "Food" ∧
      get_general_category_from_similarity ("coffe") = "Miscellaneous" ∧
      (bestMatch (pyLowerStrip ("coffe")) (tablePairs CATEGORY_EXAMPLES)).1
        = mkRat 2 5 ∧
      get_general_category_from_similarity ("xyz123") = "Miscellaneous" :=
  ⟨by decide, by decide, by decide, by decide⟩

/-- C3: each matcher returns a label other than the default only when the
best similarity ratio over all (label, example) pairs is strictly greater
than 4/5 = 0.8; the input "foodxy" attains best ratio exactly 4/5 and
resolves to "Miscellaneous", while "foods" attains 8/9 > 4/5 and resolves
to the matched canonical label "Food". -/
theorem c3_strict_threshold :
    (∀ s : String,
        get_general_category_from_similarity s ≠ "Miscellaneous" →
          mkRat 4 5 <
            maxScoreFrom (pyLowerStrip s) (tablePairs CATEGORY_EXAMPLES) 0) ∧
    (∀ s : String,
        get_general_payment_method s ≠ "Miscellaneous" →
          mkRat 4 5 <
            maxScoreFrom (pyLowerStrip s) (tablePairs PAYMENT_EXAMPLES) 0) ∧
    (bestMatch (pyLowerStrip ("foodxy")) (tablePairs CATEGORY_EXAMPLES)).1
        = mkRat 4 5 ∧
    get_general_category_from_similarity ("foodxy") = "Miscellaneous" ∧
    (bestMatch (pyLowerStrip ("foods")) (tablePairs CATEGORY_EXAMPLES)).1
        = mkRat 8 9 ∧
    get_general_category_from_similarity ("foods") = "Food" := by
  refine ⟨?_, ?_, by decide, by decide, by decide, by decide⟩
  · intro s h
    by_cases hc :
        mkRat 4 5 < (bestMatch (pyLowerStrip s) (tablePairs CATEGORY_EXAMPLES)).1
    · have h1 : (bestMatch (pyLowerStrip s) (tablePairs CATEGORY_EXAMPLES)).1
          = maxScoreFrom (pyLowerStrip s) (tablePairs CATEGORY_EXAMPLES) 0 :=
        foldl_stepBest_fst (pyLowerStrip s) (tablePairs CATEGORY_EXAMPLES)
          (0, "Miscellaneous")
      exact h1 ▸ hc
    · exfalso
      apply h
      unfold get_general_category_from_similarity
      rw [if_neg hc]
  · intro s h
    by_cases hc :
        mkRat 4 5 < (bestMatch (pyLowerStrip s) (tablePairs PAYMENT_EXAMPLES)).1
    · have h1 : (bestMatch (pyLowerStrip s) (tablePairs PAYMENT_EXAMPLES)).1
          = maxScoreFrom (pyLowerStrip s) (tablePairs PAYMENT_EXAMPLES) 0 :=
        foldl_stepBest_fst (pyLowerStrip s) (tablePairs PAYMENT_EXAMPLES)
          (0, "Miscellaneous")
      exact h1 ▸ hc
    · exfalso
      apply h
      unfold get_general_payment_method
      rw [if_neg hc]

/-- C3 witness: the matched input "lunch" discharges the hypothesis of the
threshold direction; its best ratio strictly exceeds 4/5. -/
theorem c3_witness :
    mkRat 4 5 <
      maxScoreFrom (pyLowerStrip ("lunch")) (tablePairs CATEGORY_EXAMPLES) 0 :=
  c3_strict_threshold.1 ("lunch") (by decide)

/-- C4: for every description, raw labels, and trained-classifier-or-none
whose predictions lie in the canonical label sets (the classifier is
trained on labels of already-normalized records), both normalization
pipelines return a non-empty label drawn from the canonical keys together
with "Miscellaneous"; being total Lean functions, they never raise. -/
theorem c4_total_canonical (description rawc rawp : String)
    (mc mp : Option (String → String))
    (hc : ∀ f d, mc = some f → f d ∈ canonicalCategoryLabels)
    (hp : ∀ f d, mp = some f → f d ∈ canonicalPaymentLabels) :
    (predict_and_refine_category description rawc mc ∈ canonicalCategoryLabels ∧
      predict_and_refine_category description rawc mc ≠ "") ∧
    (predict_and_refine_payment description rawp mp ∈ canonicalPaymentLabels ∧
      predict_and_refine_payment description rawp mp ≠ "") := by
  have hne : ∀ x ∈ canonicalCategoryLabels, x ≠ ("" : String) := by decide
  have hne' : ∀ x ∈ canonicalPaymentLabels, x ≠ ("" : String) := by decide
  have m1 : predict_and_refine_category description rawc mc
      ∈ canonicalCategoryLabels := by
    unfold predict_and_refine_category
    by_cases h : get_general_category_from_similarity rawc ≠ "Miscellaneous"
    · rw [if_pos h]
      exact get_general_category_mem rawc
    · rw [if_neg h]
      cases mc with
      | none => exact (by decide : ("Miscellaneous" : String) ∈ canonicalCategoryLabels)
      | some f => exact hc f description rfl
  have m2 : predict_and_refine_payment description rawp mp
      ∈ canonicalPaymentLabels := by
    unfold predict_and_refine_payment
    by_cases h : get_general_payment_method rawp ≠ "Miscellaneous"
    · rw [if_pos h]
      exact get_general_payment_mem rawp
    · rw [if_neg h]
      cases mp with
      | none => exact (by decide : ("Miscellaneous" : String) ∈ canonicalPaymentLabels)
      | some f => exact hp f description rfl
  exact ⟨⟨m1, hne _ m1⟩, ⟨m2, hne' _ m2⟩⟩

/-- C4 witness: a nonsense raw label with a trained classifier predicting
"Food" gives a non-empty canonical result. -/
theorem c4_witness :
    predict_and_refine_category ("weird input") ("qqqq")
        (some fun _ => "Food") ∈ canonicalCategoryLabels ∧
      predict_and_refine_category ("weird input") ("qqqq")
        (some fun _ => "Food") ≠ "" :=
  (c4_total_canonical ("weird input") ("qqqq") ("qqqq")
      (some fun _ => "Food") (some fun _ => "Cash")
      (fun f d hf => by
        cases hf
        exact (by decide : ("Food" : String) ∈ canonicalCategoryLabels))
      (fun f d hf => by
        cases hf
        exact (by decide : ("Cash" : String) ∈ canonicalPaymentLabels))).1

/-- C5: every document built by add_expense_db carries the user-entered
category and payment method unchanged in original_category and
original_payment_method next to the normalized fields; inserting raw label
"lunch" with payment "td debit" stores category "Food" and payment_method
"TD Debit" with the originals preserved. -/
theorem c5_originals_preserved (date : String) (amount : ℚ)
    (category description payment_method : String)
    (mc mp : Option (String → String)) :
    ((add_expense_db date amount category description payment_method mc
          mp).original_category = category ∧
      (add_expense_db date amount category description payment_method mc
          mp).original_payment_method = payment_method) ∧
    (add_expense_db ("2025-05-20") 12 ("lunch") ("meal at cafe") ("td debit")
          none none).category = "Food" ∧
    (add_expense_db ("2025-05-20") 12 ("lunch") ("meal at cafe") ("td debit")
          none none).payment_method = "TD Debit" ∧
    (add_expense_db ("2025-05-20") 12 ("lunch") ("meal at cafe") ("td debit")
          none none).original_category = "lunch" ∧
    (add_expense_db ("2025-05-20") 12 ("lunch") ("meal at cafe") ("td debit")
          none none).original_payment_method = "td debit" :=
  ⟨⟨rfl, rfl⟩, by decide, by decide, by decide, by decide⟩

/-- C6: with fewer than 2 training rows both trainers return the untrained
result rather than raising, and an unmatched raw label normalized with the
resulting absent model falls through to "Miscellaneous". -/
theorem c6_insufficient_training (data : List (String × String))
    (description raw : String) (h : data.length < 2) :
    train_category_classifier data = none ∧
      train_payment_classifier data = none ∧
      (get_general_category_from_similarity raw = "Miscellaneous" →
        predict_and_refine_category description raw
          (train_category_classifier data) = "Miscellaneous") ∧
      (get_general_payment_method raw = "Miscellaneous" →
        predict_and_refine_payment description raw
          (train_payment_classifier data) = "Miscellaneous") := by
  have ht : train_category_classifier data = none := by
    unfold train_category_classifier
    rw [if_pos h]
  have ht' : train_payment_classifier data = none := by
    unfold train_payment_classifier
    rw [if_pos h]
  refine ⟨ht, ht', ?_, ?_⟩
  · intro hm
    rw [ht]
    unfold predict_and_refine_category
    rw [if_neg fun hcon => hcon hm]
  · intro hm
    rw [ht']
    unfold predict_and_refine_payment
    rw [if_neg fun hcon => hcon hm]

/-- C6 witness: with zero records the category trainer is untrained and the
unmatched raw label "xyz123" normalizes to "Miscellaneous". -/
theorem c6_witness :
    train_category_classifier [] = none ∧
      predict_and_refine_category ("zzz") ("xyz123")
        (train_category_classifier []) = "Miscellaneous" := by
  obtain ⟨h1, h2, h3, h4⟩ :=
    c6_insufficient_training [] ("zzz") ("xyz123") (by decide)
  exact ⟨h1, h3 (by decide)⟩

/-- C7: the matchers are deterministic pure functions of the input string
and the static example tables: repeated calls agree, and the result depends
on the input only through its lowercased and stripped form. -/
theorem c7_deterministic :
    (∀ s : String,
        get_general_category_from_similarity s
            = get_general_category_from_similarity s ∧
          get_general_payment_method s = get_general_payment_method s) ∧
    (∀ s t : String, pyLowerStrip s = pyLowerStrip t →
        get_general_category_from_similarity s
            = get_general_category_from_similarity t ∧
          get_general_payment_method s = get_general_payment_method t) := by
  refine ⟨fun s => ⟨rfl, rfl⟩, fun s t h => ?_⟩
  unfold get_general_category_from_similarity get_general_payment_method
  rw [h]
  exact ⟨rfl, rfl⟩

/-- C7 witness: "Lunch" and " lunch" normalize to the same character list,
so the matcher treats them identically. -/
theorem c7_witness :
    get_general_category_from_similarity ("Lunch")
      = get_general_category_from_similarity (" lunch") :=
  (c7_deterministic.2 ("Lunch") (" lunch") (by decide)).1

/-- C8: every canonical label whose lowercased form appears in its own
example list is mapped to itself by its matcher; in particular "Food" maps
to "Food", since "food" is a Food example. -/
theorem c8_canonical_fixed :
    (∀ p ∈ CATEGORY_EXAMPLES, String.mk (p.1.data.map Char.toLower) ∈ p.2 →
        get_general_category_from_similarity p.1 = p.1) ∧
    (∀ p ∈ PAYMENT_EXAMPLES, String.mk (p.1.data.map Char.toLower) ∈ p.2 →
        get_general_payment_method p.1 = p.1) ∧
    get_general_category_from_similarity ("Food") = "Food" := by
  refine ⟨by decide, by decide, by decide⟩

/-- C8 witness: "Cash" is lowercase "cash", which is in the Cash example
list, so the payment matcher maps "Cash" to itself. -/
theorem c8_witness : get_general_payment_method ("Cash") = "Cash" :=
  c8_canonical_fixed.2.1 ("Cash", ["cash"]) (by decide) (by decide)

/-- C9: the empty input scores 0 against every non-empty example — strictly
below 1 and never above the 0.8 threshold — and both matchers resolve the
empty string to "Miscellaneous". -/
theorem c9_empty_input (e : List Char) (he : e ≠ []) :
    ratioVal [] e = 0 ∧ ratioVal [] e < 1 ∧ ¬ mkRat 4 5 < ratioVal [] e ∧
      get_general_category_from_similarity ("") = "Miscellaneous" ∧
      get_general_payment_method ("") = "Miscellaneous" := by
  have hlen : e.length ≠ 0 := fun hc => he (List.length_eq_zero.mp hc)
  have h0 : ratioVal [] e = 0 := by
    unfold ratioVal
    rw [if_neg (by simpa using hlen)]
    have hm : matchTotal [] e = 0 := rfl
    rw [hm]
    simp
  rw [h0]
  exact ⟨rfl, by norm_num, by decide, by decide, by decide⟩

/-- C9 witness: the non-empty example "food" scores 0 against the empty
input. -/
theorem c9_witness :
    ratioVal [] (("food").data) = 0 ∧
      get_general_category_from_similarity ("") = "Miscellaneous" := by
  obtain ⟨h1, h2, h3, h4, h5⟩ := c9_empty_input (("food").data) (by decide)
  exact ⟨h1, h4⟩

/-- C10: the matcher loops replace the recorded best only on a strictly
greater score, so whenever the maximal score clears the 0.8 threshold the
matcher returns the canonical label of the first pair, in the fixed
insertion-order iteration of the example mapping, attaining that maximum;
two pairs sharing the maximum are thus resolved first-seen. -/
theorem c10_first_seen_tie_break (s : String) :
    (∀ p, mkRat 4 5 <
        maxScoreFrom (pyLowerStrip s) (tablePairs CATEGORY_EXAMPLES) 0 →
      firstWithScore (pyLowerStrip s) (tablePairs CATEGORY_EXAMPLES)
          (maxScoreFrom (pyLowerStrip s) (tablePairs CATEGORY_EXAMPLES) 0)
          = some p →
      get_general_category_from_similarity s = p.1) ∧
    (∀ p, mkRat 4 5 <
        maxScoreFrom (pyLowerStrip s) (tablePairs PAYMENT_EXAMPLES) 0 →
      firstWithScore (pyLowerStrip s) (tablePairs PAYMENT_EXAMPLES)
          (maxScoreFrom (pyLowerStrip s) (tablePairs PAYMENT_EXAMPLES) 0)
          = some p →
      get_general_payment_method s = p.1) := by
  constructor
  · intro p hm hf
    have hfst : (bestMatch (pyLowerStrip s) (tablePairs CATEGORY_EXAMPLES)).1
        = maxScoreFrom (pyLowerStrip s) (tablePairs CATEGORY_EXAMPLES) 0 :=
      foldl_stepBest_fst (pyLowerStrip s) (tablePairs CATEGORY_EXAMPLES)
        (0, "Miscellaneous")
    have hpos : (0 : ℚ) <
        maxScoreFrom (pyLowerStrip s) (tablePairs CATEGORY_EXAMPLES) 0 :=
      lt_trans (by decide : (0 : ℚ) < mkRat 4 5) hm
    obtain ⟨p0, hf0, hv⟩ := foldl_stepBest_argmax (pyLowerStrip s)
      (tablePairs CATEGORY_EXAMPLES) 0 ("Miscellaneous") hpos
    have hpp : p0 = p := by
      rw [hf0] at hf
      exact Option.some.inj hf
    unfold get_general_category_from_similarity
    rw [if_pos (hfst.symm ▸ hm), ← hpp]
    exact hv
  · intro p hm hf
    have hfst : (bestMatch (pyLowerStrip s) (tablePairs PAYMENT_EXAMPLES)).1
        = maxScoreFrom (pyLowerStrip s) (tablePairs PAYMENT_EXAMPLES) 0 :=
      foldl_stepBest_fst (pyLowerStrip s) (tablePairs PAYMENT_EXAMPLES)
        (0, "Miscellaneous")
    have hpos : (0 : ℚ) <
        maxScoreFrom (pyLowerStrip s) (tablePairs PAYMENT_EXAMPLES) 0 :=
      lt_trans (by decide : (0 : ℚ) < mkRat 4 5) hm
    obtain ⟨p0, hf0, hv⟩ := foldl_stepBest_argmax (pyLowerStrip s)
      (tablePairs PAYMENT_EXAMPLES) 0 ("Miscellaneous") hpos
    have hpp : p0 = p := by
      rw [hf0] at hf
      exact Option.some.inj hf
    unfold get_general_payment_method
    rw [if_pos (hfst.symm ▸ hm), ← hpp]
    exact hv

/-- C10 witness: for the input "lunch" the maximal score is above the
threshold, its first argmax pair is ("Food", "lunch"), and the matcher
returns "Food". -/
theorem c10_witness :
    get_general_category_from_similarity ("lunch") = ("Food", "lunch").1 :=
  (c10_first_seen_tie_break ("lunch")).1 ("Food", "lunch") (by decide)
    (by decide)
